import Mathlib

/-!
# Verification of the dock-fire host-side runtime controller

Shallow embedding in Lean 4 of the parts of the dock-fire container runtime
(Go) that the specification's claims are about:

* the per-container record and state machine (`internal/container/container.go`),
* the process-liveness probe and effective status (same file),
* the state persistence (`Save`, same file),
* the /30 subnet allocator (`internal/network/allocator.go`),
* the network setup / create-verb control flow
  (`internal/network/setup.go`, the `create` command),
* the delete / start / state / kill verb load gates
  (`internal/runtime/delete.go` and friends),
* the root-image sizing and size parsing (`internal/rootfs/image.go`),
* the VM memory-size parsing (`internal/vm/config.go`).

Go `int64` arithmetic is modelled as `Int` with explicit two's-complement
wrapping (`wrap64`) at the multiplications where the Go code can overflow.
Effects on the host (files, TAP devices, iptables, processes) are modelled
as explicit state or effect lists; outcomes of external operations (process
signals, command exit statuses) are inputs to the model.
-/

/-! ## Container record and state machine (internal/container/container.go) -/

/-- Container status, mirroring the `Status` string constants. -/
inductive Status where
  | creating
  | created
  | running
  | stopped
  deriving DecidableEq, Repr

/-- Render a status the way the Go constants spell it. -/
def Status.str : Status → String
  | .creating => "creating"
  | .created => "created"
  | .running => "running"
  | .stopped => "stopped"

/-- The persistent per-container record (`type Container struct`), with the
Go JSON field names. `pid` is the VMM process id (0 until captured). -/
structure Container where
  id : String := ""
  bundle : String := ""
  status : Status := .creating
  pid : Int := 0
  rootDir : String := ""
  imagePath : String := ""
  socketPath : String := ""
  tapDevice : String := ""
  guestIP : String := ""
  hostIP : String := ""
  subnetCIDR : String := ""
  deriving DecidableEq, Repr

/-- The `valid` transition map inside `Container.Transition`: for each
status, the list of statuses it may move to (absent key = no transitions). -/
def validNexts : Status → Option (List Status)
  | .creating => some [.created]
  | .created => some [.running]
  | .running => some [.stopped]
  | .stopped => none

/-- `Container.Transition`: returns the new status on success and an error
otherwise (in which case the Go method leaves `c.Status` unchanged). -/
def transition (cur target : Status) : Except String Status :=
  match validNexts cur with
  | none => .error ("no transitions from " ++ cur.str)
  | some allowed =>
    if target ∈ allowed then .ok target
    else .error ("invalid transition: " ++ cur.str ++ " -> " ++ target.str)

/-- The container's status after a `Transition` call: the requested status
when the call succeeded, the old status when it returned an error. -/
def statusAfter (cur target : Status) : Status :=
  match transition cur target with
  | .ok s => s
  | .error _ => cur

/-- Position of a status in the order `creating, created, running, stopped`. -/
def Status.rank : Status → Nat
  | .creating => 0
  | .created => 1
  | .running => 2
  | .stopped => 3

/-- `Except` success as a `Bool` (Go `err == nil`). -/
def okB {ε α : Type} : Except ε α → Bool
  | .ok _ => true
  | .error _ => false

/-! ## Liveness probe (IsVMMAlive / EffectiveStatus) -/

/-- Host process-table oracle: the outcome of `os.FindProcess(pid)` and of
`proc.Signal(syscall.Signal(0))` for each pid. On Linux `kill(pid, 0)`
succeeds exactly when the process exists and may be signalled. -/
structure Host where
  findProcessOk : Int → Bool
  signalZeroOk : Int → Bool

/-- `Container.IsVMMAlive`: false for non-positive pids without probing,
false when `os.FindProcess` errors, else the outcome of the signal-0 probe. -/
def IsVMMAlive (h : Host) (c : Container) : Bool :=
  if c.pid ≤ 0 then false
  else if h.findProcessOk c.pid = false then false
  else h.signalZeroOk c.pid

/-- `Container.EffectiveStatus`: `stopped` when the record says `running`
but the VMM probe says dead, else the recorded status. -/
def EffectiveStatus (h : Host) (c : Container) : Status :=
  if c.status = .running ∧ IsVMMAlive h c = false then .stopped else c.status

/-- A host on which every signal-0 probe succeeds (e.g. probing pid 0 on
Linux signals the caller's own process group and succeeds). -/
def hostAllOk : Host := ⟨fun _ => true, fun _ => true⟩

/-- A persisted record that claims `running` before a pid was captured. -/
def runningNoPid : Container := { id := "c0", status := .running, pid := 0 }

/-! ## Theorems: state machine (C6) and liveness (C5) -/

/-- C6: the only transitions the state machine permits are
`creating → created`, `created → running` and `running → stopped`; every
other request is rejected with the status left unchanged, and therefore a
successful call moves the rank strictly forward and no sequence of
transition requests ever lowers the rank. -/
theorem c6_state_machine :
    ∀ cur target : Status,
      (okB (transition cur target) = true ↔
        ((cur = .creating ∧ target = .created) ∨
         (cur = .created ∧ target = .running) ∨
         (cur = .running ∧ target = .stopped)))
      ∧ statusAfter cur target =
          (if okB (transition cur target) = true then target else cur)
      ∧ cur.rank ≤ (statusAfter cur target).rank
      ∧ ∀ reqs : List Status,
          cur.rank ≤ (reqs.foldl statusAfter cur).rank := by
  have hstep : ∀ cur target : Status,
      (okB (transition cur target) = true ↔
        ((cur = .creating ∧ target = .created) ∨
         (cur = .created ∧ target = .running) ∨
         (cur = .running ∧ target = .stopped)))
      ∧ statusAfter cur target =
          (if okB (transition cur target) = true then target else cur)
      ∧ cur.rank ≤ (statusAfter cur target).rank := by
    intro cur target
    cases cur <;> cases target <;>
      simp [transition, validNexts, statusAfter, okB, Status.rank]
  intro cur target
  refine ⟨(hstep cur target).1, (hstep cur target).2.1, (hstep cur target).2.2, ?_⟩
  intro reqs
  induction reqs generalizing cur with
  | nil => exact Nat.le_refl _
  | cons r rest ih =>
    exact Nat.le_trans (hstep cur r).2.2 (ih (statusAfter cur r))

/-- C5 counterexample: on a record with recorded status `running` and
pid 0 (documented as "0 until captured"), the signal-0 probe outcome is
success, yet `IsVMMAlive` reports dead and `EffectiveStatus` reports
`stopped`; so the probe does not report alive "exactly when signal 0
succeeds", and `EffectiveStatus` returns `stopped` although the probe
(in the claim's sense) did not report dead. -/
theorem c5_pid_zero_cex :
    hostAllOk.signalZeroOk runningNoPid.pid = true
    ∧ IsVMMAlive hostAllOk runningNoPid = false
    ∧ runningNoPid.status = .running
    ∧ EffectiveStatus hostAllOk runningNoPid = .stopped := by
  refine ⟨rfl, ?_, rfl, ?_⟩ <;>
    simp [IsVMMAlive, EffectiveStatus, hostAllOk, runningNoPid]

/-- C5 amended: `IsVMMAlive` reports alive exactly when the pid is
positive, `os.FindProcess` succeeds and the signal-0 probe succeeds (a
non-positive pid or any error means dead), and `EffectiveStatus` returns
`stopped` exactly when the recorded status is `stopped` or the recorded
status is `running` with the probe reporting dead; otherwise it returns
the recorded status unchanged. -/
theorem c5_liveness_amended :
    ∀ (h : Host) (c : Container),
      IsVMMAlive h c =
        (decide (0 < c.pid) && h.findProcessOk c.pid && h.signalZeroOk c.pid)
      ∧ (EffectiveStatus h c = .stopped ↔
          (c.status = .stopped ∨
           (c.status = .running ∧ IsVMMAlive h c = false)))
      ∧ (EffectiveStatus h c = c.status ∨ EffectiveStatus h c = .stopped) := by
  intro h c
  refine ⟨?_, ?_, ?_⟩
  · by_cases hp : c.pid ≤ 0
    · simp [IsVMMAlive, hp, Int.not_lt.mpr hp]
    · have hp' : 0 < c.pid := Int.not_le.mp hp
      by_cases hf : h.findProcessOk c.pid = false <;>
        simp_all [IsVMMAlive, hp']
  · unfold EffectiveStatus
    by_cases hr : c.status = .running
    · by_cases ha : IsVMMAlive h c = false <;> simp_all
    · cases hc : c.status <;> simp_all
  · unfold EffectiveStatus
    by_cases hr : c.status = .running ∧ IsVMMAlive h c = false <;> simp_all

/-! ## Size parsing (internal/rootfs/image.go parseSize, internal/vm/config.go parseMemSize)

`strconv.ParseInt(s, 10, 64)` is modelled by `goParseInt64`: an optional
sign followed by at least one decimal digit, rejected outside the int64
range. Go's `strings.TrimSpace` is modelled for its ASCII whitespace set
(the inputs at issue are ASCII; Unicode whitespace is not modelled). Go's
`s[len(s)-1:]` takes the last byte; on ASCII input that is the last
character, and on a multi-byte last character both the byte and the
character fail the `G`/`M` comparison and the digit test alike, so the
model's last-character view yields the same outcomes. Go `int64`
multiplication wraps; `wrap64` applies the two's-complement reduction. -/

/-- The six ASCII whitespace bytes trimmed by Go's `strings.TrimSpace`. -/
def isGoSpace (c : Char) : Bool :=
  c = ' ' || c = '\t' || c = '\n' || c = '\x0b' || c = '\x0c' || c = '\r'

/-- `strings.TrimSpace` (ASCII fragment). -/
def goTrimSpace (s : String) : String :=
  String.mk (((s.data.dropWhile isGoSpace).reverse.dropWhile isGoSpace).reverse)

/-- `strconv.ParseInt(s, 10, 64)`: `none` is a non-nil error (syntax or
range), `some n` the parsed value. -/
def goParseInt64 (s : String) : Option Int :=
  match s.data with
  | [] => none
  | c :: rest =>
    let signed : Bool × List Char :=
      if c = '-' then (true, rest)
      else if c = '+' then (false, rest)
      else (false, c :: rest)
    if signed.2.isEmpty then none
    else if signed.2.all Char.isDigit then
      let v : Nat := signed.2.foldl (fun acc d => 10 * acc + (d.toNat - 48)) 0
      if signed.1 then (if v ≤ 2 ^ 63 then some (-(v : Int)) else none)
      else (if v ≤ 2 ^ 63 - 1 then some (v : Int) else none)
    else none

/-- Two's-complement reduction of Go `int64` arithmetic. -/
def wrap64 (x : Int) : Int := (x + 2 ^ 63) % 2 ^ 64 - 2 ^ 63

/-- `parseSize` (image.go): bytes, or a number suffixed `G`/`M` (the last
byte, upper-cased) scaled by 2^30 / 2^20 with Go int64 multiplication. -/
def parseSize (s0 : String) : Except String Int :=
  let s := goTrimSpace s0
  match s.data.reverse with
  | [] => .error "empty size string"
  | c :: restRev =>
    if c.toUpper = 'G' then
      match goParseInt64 (String.mk restRev.reverse) with
      | some n => .ok (wrap64 (n * 1073741824))
      | none => .error ("invalid size " ++ s)
    else if c.toUpper = 'M' then
      match goParseInt64 (String.mk restRev.reverse) with
      | some n => .ok (wrap64 (n * 1048576))
      | none => .error ("invalid size " ++ s)
    else
      match goParseInt64 s with
      | some n => .ok n
      | none => .error ("invalid size " ++ s)

/-- `parseMemSize` (config.go): like `parseSize` but in MiB (`G` scales by
1024) and rejecting any parsed number `n ≤ 0` in every branch. -/
def parseMemSize (s0 : String) : Except String Int :=
  let s := goTrimSpace s0
  match s.data.reverse with
  | [] => .error "empty size string"
  | c :: restRev =>
    if c.toUpper = 'G' then
      match goParseInt64 (String.mk restRev.reverse) with
      | some n =>
        if n ≤ 0 then .error ("invalid memory size " ++ s)
        else .ok (wrap64 (n * 1024))
      | none => .error ("invalid memory size " ++ s)
    else if c.toUpper = 'M' then
      match goParseInt64 (String.mk restRev.reverse) with
      | some n =>
        if n ≤ 0 then .error ("invalid memory size " ++ s)
        else .ok n
      | none => .error ("invalid memory size " ++ s)
    else
      match goParseInt64 s with
      | some n =>
        if n ≤ 0 then .error ("invalid memory size " ++ s)
        else .ok n
      | none => .error ("invalid memory size " ++ s)

/-- The integer token both parsers extract before scaling: the whole
trimmed string, or the part before a trailing `G`/`M`. `none` when the
string is empty or the token is not a well-formed int64. -/
def sizeNumValue (s0 : String) : Option Int :=
  let s := goTrimSpace s0
  match s.data.reverse with
  | [] => none
  | c :: restRev =>
    if c.toUpper = 'G' ∨ c.toUpper = 'M' then goParseInt64 (String.mk restRev.reverse)
    else goParseInt64 s

/-! ## Theorems: parseSize values and rejection (C8), signed sizes (C10) -/

/-- C8: `parseSize "1G" = 1073741824`, `parseSize "512M" = 536870912`,
`parseSize "1024" = 1024`, and `parseSize` returns an error exactly for
the inputs whose numeric token is not a well-formed int64 (so every
invalid size string is rejected with an error; the model is a total
function, the one partial Go operation — indexing the last byte — being
guarded by the emptiness check). -/
theorem c8_parseSize_spec :
    parseSize "1G" = .ok 1073741824
    ∧ parseSize "512M" = .ok 536870912
    ∧ parseSize "1024" = .ok 1024
    ∧ ∀ s : String, okB (parseSize s) = (sizeNumValue s).isSome := by
  refine ⟨rfl, rfl, rfl, ?_⟩
  intro s
  cases h : (goTrimSpace s).data.reverse with
  | nil => simp [parseSize, sizeNumValue, h, okB]
  | cons c r =>
    by_cases hG : c.toUpper = 'G'
    · cases hp : goParseInt64 (String.mk r.reverse) <;>
        simp [parseSize, sizeNumValue, h, hG, hp, okB]
    · by_cases hM : c.toUpper = 'M'
      · cases hp : goParseInt64 (String.mk r.reverse) <;>
          simp [parseSize, sizeNumValue, h, hG, hM, hp, okB]
      · cases hp : goParseInt64 (goTrimSpace s) <;>
          simp [parseSize, sizeNumValue, h, hG, hM, hp, okB]

/-- C10: `parseSize` accepts zero and negative numbers without error
(`"-5"` gives -5, `"-1G"` gives -1073741824, `"0"` gives 0; in general it
succeeds whenever the numeric token parses, whatever its sign), whereas
`parseMemSize` returns an error whenever the parsed numeric value is at
most zero. -/
theorem c10_signed_size_contrast :
    parseSize "-5" = .ok (-5)
    ∧ parseSize "-1G" = .ok (-1073741824)
    ∧ parseSize "0" = .ok 0
    ∧ (∀ (s : String) (n : Int), sizeNumValue s = some n →
        okB (parseSize s) = true)
    ∧ (∀ (s : String) (n : Int), sizeNumValue s = some n → n ≤ 0 →
        okB (parseMemSize s) = false) := by
  refine ⟨rfl, rfl, rfl, ?_, ?_⟩
  · intro s n hsv
    cases h : (goTrimSpace s).data.reverse with
    | nil => simp [sizeNumValue, h] at hsv
    | cons c r =>
      by_cases hG : c.toUpper = 'G'
      · simp [sizeNumValue, h, hG] at hsv
        simp [parseSize, h, hG, hsv, okB]
      · by_cases hM : c.toUpper = 'M'
        · simp [sizeNumValue, h, hG, hM] at hsv
          simp [parseSize, h, hG, hM, hsv, okB]
        · simp [sizeNumValue, h, hG, hM] at hsv
          simp [parseSize, h, hG, hM, hsv, okB]
  · intro s n hsv hn
    cases h : (goTrimSpace s).data.reverse with
    | nil => simp [sizeNumValue, h] at hsv
    | cons c r =>
      by_cases hG : c.toUpper = 'G'
      · simp [sizeNumValue, h, hG] at hsv
        simp [parseMemSize, h, hG, hsv, hn, okB]
      · by_cases hM : c.toUpper = 'M'
        · simp [sizeNumValue, h, hG, hM] at hsv
          simp [parseMemSize, h, hG, hM, hsv, hn, okB]
        · simp [sizeNumValue, h, hG, hM] at hsv
          simp [parseMemSize, h, hG, hM, hsv, hn, okB]

/-- C10 witness: instantiating the general parts at the concrete input
`"-3"`: the numeric token is -3 ≤ 0, `parseSize` succeeds on it and
`parseMemSize` rejects it. -/
theorem c10_signed_size_contrast_witness :
    okB (parseSize "-3") = true ∧ okB (parseMemSize "-3") = false :=
  ⟨c10_signed_size_contrast.2.2.2.1 "-3" (-3) rfl,
   c10_signed_size_contrast.2.2.2.2 "-3" (-3) rfl (by decide)⟩

/-! ## Subnet allocator (internal/network/allocator.go)

`AllocateSubnet` scans the on-disk records (skipping any that fail to
load) and the host's `df-*` link addresses, then walks the /30 candidates
at offsets `4·i` from `10.0.0.0`. Inputs to the model:

* `loads`: the per-id outcome of `container.Load` over `container.List`,
  in order — `none` for a record that failed to load, `some c` otherwise;
* `addrs`: the (device, address, prefix-length) triples parsed out of
  `ip -o addr show` — one entry per `inet` address of a link; lines and
  addresses that Go's field/CIDR parsing rejects are skipped by the code
  and are therefore not part of the input.

IPv4 addresses are `Nat` values below 2^32; `ipStr32` renders the dotted
quad exactly as `net.IP.String` does for IPv4, and `ipNetString` renders
`net.IPNet.String` (network address obtained by masking, then `/len`). -/

/-- The `Subnet` struct returned by the allocator. -/
structure Subnet where
  HostIP : String
  GuestIP : String
  CIDR : String
  deriving DecidableEq, Repr

/-- Dotted-quad rendering from the four octets. -/
def ipDotted (a b c d : Nat) : String :=
  toString a ++ "." ++ toString b ++ "." ++ toString c ++ "." ++ toString d

/-- `net.IP.String` on a 32-bit value. -/
def ipStr32 (n : Nat) : String :=
  ipDotted (n / 16777216 % 256) (n / 65536 % 256) (n / 256 % 256) (n % 256)

/-- One `inet` address attached to one host link. -/
structure TapAddr where
  dev : String
  ip : Nat
  plen : Nat

/-- The network address of `ip/plen` (`net.ParseCIDR`'s masking). -/
def maskNetwork (ip plen : Nat) : Nat := ip - ip % 2 ^ (32 - plen)

/-- `net.IPNet.String`: masked network address, slash, prefix length. -/
def ipNetString (ip plen : Nat) : String :=
  ipStr32 (maskNetwork ip plen) ++ "/" ++ toString plen

/-- `usedTAPSubnets`: the network CIDR of every address attached to a
link whose name starts with `df-`. -/
def usedTAPSubnets (addrs : List TapAddr) : List String :=
  (addrs.filter (fun a => a.dev.startsWith "df-")).map
    (fun a => ipNetString a.ip a.plen)

/-- The `used` set built by `AllocateSubnet`: every non-empty
`subnetCIDR` of a loadable record (load failures are skipped by the
`continue`), plus the `df-*` link networks. Membership in this list
models membership in the Go map. -/
def usedSubnets (loads : List (Option Container)) (addrs : List TapAddr) :
    List String :=
  (((loads.filterMap id).filter (fun c => c.subnetCIDR ≠ "")).map
    (fun c => c.subnetCIDR)) ++ usedTAPSubnets addrs

/-- Candidate `i` of the allocation loop: the bytes
`10.0.(4i >> 8).(4i & 0xff)` rendered with `/30` appended. -/
def candidateCIDR (i : Nat) : String :=
  ipDotted 10 0 (4 * i / 256 % 256) (4 * i % 256) ++ "/30"

/-- The `hostIP` built from candidate `i`: last octet incremented
(byte arithmetic, hence the mod 256). -/
def hostIPStr (i : Nat) : String :=
  ipDotted 10 0 (4 * i / 256 % 256) ((4 * i % 256 + 1) % 256)

/-- The `guestIP` built from candidate `i`: last octet plus two. -/
def guestIPStr (i : Nat) : String :=
  ipDotted 10 0 (4 * i / 256 % 256) ((4 * i % 256 + 2) % 256)

/-- The allocation loop `for i := 0; i < 16384; i++`, as a countdown on
the remaining iterations: returns the first index whose candidate is not
in `used`. -/
def findFree (used : List String) (i fuel : Nat) : Option Nat :=
  match fuel with
  | 0 => none
  | fuel' + 1 =>
    if candidateCIDR i ∈ used then findFree used (i + 1) fuel' else some i

/-- The `NoSubnet` failure message. -/
def noSubnetMsg : String := "no free /30 subnets available in 10.0.0.0/16"

/-- `AllocateSubnet`: the first free candidate as a `Subnet`, or the
`NoSubnet` error after 16384 candidates. -/
def AllocateSubnet (loads : List (Option Container)) (addrs : List TapAddr) :
    Except String Subnet :=
  let used := usedSubnets loads addrs
  match findFree used 0 16384 with
  | some i => .ok ⟨hostIPStr i, guestIPStr i, candidateCIDR i⟩
  | none => .error noSubnetMsg

theorem findFree_none_iff (used : List String) :
    ∀ fuel i, findFree used i fuel = none ↔
      ∀ j, i ≤ j → j < i + fuel → candidateCIDR j ∈ used := by
  intro fuel
  induction fuel with
  | zero =>
    intro i
    constructor
    · intro _ j hj1 hj2
      exact absurd hj2 (by omega)
    · intro _
      rfl
  | succ f ih =>
    intro i
    simp only [findFree]
    by_cases hc : candidateCIDR i ∈ used
    · rw [if_pos hc, ih (i + 1)]
      constructor
      · intro hall j hj1 hj2
        rcases Nat.eq_or_lt_of_le hj1 with rfl | hlt
        · exact hc
        · exact hall j hlt (by omega)
      · intro hall j hj1 hj2
        exact hall j (by omega) (by omega)
    · rw [if_neg hc]
      constructor
      · intro h
        exact absurd h (by simp)
      · intro hall
        exact absurd (hall i (Nat.le_refl i) (by omega)) hc

theorem findFree_some_of_first (used : List String) :
    ∀ fuel i k, i ≤ k → k < i + fuel → candidateCIDR k ∉ used →
      (∀ j, i ≤ j → j < k → candidateCIDR j ∈ used) →
      findFree used i fuel = some k := by
  intro fuel
  induction fuel with
  | zero =>
    intro i k h1 h2 _ _
    exact absurd h2 (by omega)
  | succ f ih =>
    intro i k h1 h2 hk hprev
    simp only [findFree]
    rcases Nat.eq_or_lt_of_le h1 with rfl | hlt
    · rw [if_neg hk]
    · rw [if_pos (hprev i (Nat.le_refl i) hlt)]
      exact ih (i + 1) k hlt (by omega) hk (fun j hj1 hj2 => hprev j (by omega) hj2)

theorem hostIP_numeric (i : Nat) (h : i < 16384) :
    hostIPStr i = ipStr32 (167772160 + 4 * i + 1) := by
  unfold hostIPStr ipStr32
  have h0 : (167772160 + 4 * i + 1) / 16777216 % 256 = 10 := by omega
  have h1 : (167772160 + 4 * i + 1) / 65536 % 256 = 0 := by omega
  have h2 : (167772160 + 4 * i + 1) / 256 % 256 = 4 * i / 256 % 256 := by omega
  have h3 : (167772160 + 4 * i + 1) % 256 = (4 * i % 256 + 1) % 256 := by omega
  rw [h0, h1, h2, h3]

theorem guestIP_numeric (i : Nat) (h : i < 16384) :
    guestIPStr i = ipStr32 (167772160 + 4 * i + 2) := by
  unfold guestIPStr ipStr32
  have h0 : (167772160 + 4 * i + 2) / 16777216 % 256 = 10 := by omega
  have h1 : (167772160 + 4 * i + 2) / 65536 % 256 = 0 := by omega
  have h2 : (167772160 + 4 * i + 2) / 256 % 256 = 4 * i / 256 % 256 := by omega
  have h3 : (167772160 + 4 * i + 2) % 256 = (4 * i % 256 + 2) % 256 := by omega
  rw [h0, h1, h2, h3]

theorem candidate_numeric (i : Nat) (h : i < 16384) :
    candidateCIDR i = ipStr32 (167772160 + 4 * i) ++ "/30" := by
  unfold candidateCIDR ipStr32
  have h0 : (167772160 + 4 * i) / 16777216 % 256 = 10 := by omega
  have h1 : (167772160 + 4 * i) / 65536 % 256 = 0 := by omega
  have h2 : (167772160 + 4 * i) / 256 % 256 = 4 * i / 256 % 256 := by omega
  have h3 : (167772160 + 4 * i) % 256 = 4 * i % 256 := by omega
  rw [h0, h1, h2, h3]

/-- C1: for every state of the records and of the host links,
`AllocateSubnet` fails with the `NoSubnet` error exactly when all 16384
candidates `10.0.0.0 + 4·i` are used (recorded in a loadable record or
covering a `df-*` link address), and whenever candidate `k` is the first
unused one it returns exactly that candidate, with `hostIP` rendering the
network address plus one and `guestIP` the network address plus two. -/
theorem c1_allocate_subnet_spec :
    ∀ (loads : List (Option Container)) (addrs : List TapAddr),
      (AllocateSubnet loads addrs = .error noSubnetMsg ↔
        ∀ i, i < 16384 → candidateCIDR i ∈ usedSubnets loads addrs)
      ∧ ∀ k, k < 16384 → candidateCIDR k ∉ usedSubnets loads addrs →
          (∀ j, j < k → candidateCIDR j ∈ usedSubnets loads addrs) →
          AllocateSubnet loads addrs =
            .ok ⟨ipStr32 (167772160 + 4 * k + 1),
                 ipStr32 (167772160 + 4 * k + 2),
                 ipStr32 (167772160 + 4 * k) ++ "/30"⟩ := by
  intro loads addrs
  constructor
  · cases hf : findFree (usedSubnets loads addrs) 0 16384 with
    | none =>
      have hall := (findFree_none_iff _ 16384 0).mp hf
      constructor
      · intro _ i hi
        exact hall i (Nat.zero_le i) (by omega)
      · intro _
        simp [AllocateSubnet, hf]
    | some i =>
      constructor
      · intro h
        exact absurd h (by simp [AllocateSubnet, hf])
      · intro hall
        have hnone : findFree (usedSubnets loads addrs) 0 16384 = none :=
          (findFree_none_iff _ 16384 0).mpr (fun j _ hj => hall j (by omega))
        rw [hf] at hnone
        exact absurd hnone (by simp)
  · intro k hk hkfree hprev
    have hsome :=
      findFree_some_of_first (usedSubnets loads addrs) 16384 0 k
        (Nat.zero_le k) (by omega) hkfree (fun j _ hj => hprev j hj)
    simp [AllocateSubnet, hsome, hostIP_numeric k hk, guestIP_numeric k hk,
      candidate_numeric k hk]

/-- C1 witness: with no records and no `df-*` addresses, the allocator
hands out the very first /30: `10.0.0.0/30` with host `10.0.0.1` and
guest `10.0.0.2`. -/
theorem c1_allocate_subnet_witness :
    AllocateSubnet [] [] = .ok ⟨"10.0.0.1", "10.0.0.2", "10.0.0.0/30"⟩ := by
  have h := (c1_allocate_subnet_spec [] []).2 0 (by decide)
    (by simp [usedSubnets, usedTAPSubnets])
    (fun j hj => absurd hj (Nat.not_lt_zero j))
  rw [h]
  rfl

/-- C9: a record that fails to load is silently skipped by the used-subnet
scan — inserting an unloadable record anywhere in the load results leaves
the allocation outcome unchanged (in particular its stored `subnetCIDR`
reserves nothing, and only a live `df-*` address can still block the
subnet) — and the allocator never fails because of it: its only failure
is the `NoSubnet` exhaustion error. -/
theorem c9_corrupt_record_skipped :
    ∀ (l1 l2 : List (Option Container)) (addrs : List TapAddr),
      AllocateSubnet (l1 ++ none :: l2) addrs = AllocateSubnet (l1 ++ l2) addrs
      ∧ (okB (AllocateSubnet (l1 ++ none :: l2) addrs) = true
         ∨ AllocateSubnet (l1 ++ none :: l2) addrs = .error noSubnetMsg) := by
  intro l1 l2 addrs
  have hused : usedSubnets (l1 ++ none :: l2) addrs = usedSubnets (l1 ++ l2) addrs := by
    simp [usedSubnets, List.filterMap_append]
  constructor
  · simp [AllocateSubnet, hused]
  · cases hf : findFree (usedSubnets (l1 ++ none :: l2) addrs) 0 16384 <;>
      simp [AllocateSubnet, hf, okB]

/-! ## State persistence (Container.Save, container.go)

`Save` marshals the record and calls `os.WriteFile(statePath, data, 0600)`.
`os.WriteFile` opens the existing file with `O_WRONLY|O_CREATE|O_TRUNC`
and then writes the data in place — there is no temporary file and no
rename. The observable on-disk contents of `state.json` over the course
of one such call are therefore: the old content, then (after the
truncating open) the empty file, then a growing prefix of the new data,
ending in the full new content. -/

/-- The sequence of contents a reader of the file can observe during
`os.WriteFile old -> new` (old content, then every prefix of the new). -/
def writeFileTrace (old new : String) : List String :=
  old :: (List.range (new.length + 1)).map (fun k => new.take k)

/-- C3: `Save` is not a whole-file replacement. In the write trace from
old content `"Z"` to new content `"AB"` a reader can observe `"A"`, which
is neither the pre-save content nor the post-save content but a proper
prefix of the new content (the truncated empty file is likewise
observable). -/
theorem c3_save_truncation_bug :
    "A" ∈ writeFileTrace "Z" "AB"
    ∧ "" ∈ writeFileTrace "Z" "AB"
    ∧ "A" ≠ "Z"
    ∧ "A" ≠ "AB"
    ∧ "A" ++ "B" = "AB" := by
  refine ⟨by decide, by decide, by decide, by decide, rfl⟩

/-! ## Image sizing (internal/rootfs/image.go CreateImage)

`CreateImage` computes `imageSize := rootfsSize + rootfsSize/5`, then
raises it to a minimum that starts at 1 GiB, is replaced by a valid
`DOCK_FIRE_DISK_SIZE` environment value, and is finally replaced by a
valid `dock-fire/disk-size` annotation (so the annotation wins); an
invalid value at either level is logged and skipped, leaving the previous
level in force. The resulting size is what `truncate -s` gives the image
file. `rootfsSize` is a sum of file sizes, hence non-negative, so Go's
truncating int64 division on it agrees with `Nat` division. `envDiskSize`
is the value of `os.Getenv`, with `""` meaning unset. -/

/-- The compiled-in 1 GiB minimum. -/
def defaultDiskSize : Int := 1073741824

/-- The `minSize` computation of `CreateImage` (env first, annotation
second, each applied only when `parseSize` accepts it). -/
def minDiskSize (envDiskSize : String) (annot : Option String) : Int :=
  let m1 : Int :=
    if envDiskSize ≠ "" then
      match parseSize envDiskSize with
      | .ok p => p
      | .error _ => defaultDiskSize
    else defaultDiskSize
  match annot with
  | some v =>
    match parseSize v with
    | .ok p => p
    | .error _ => m1
  | none => m1

/-- The size handed to `truncate -s` for the image file. -/
def imageSizeCalc (rootfsBytes : Nat) (envDiskSize : String)
    (annot : Option String) : Int :=
  let imageSize : Int := (rootfsBytes : Int) + ((rootfsBytes / 5 : Nat) : Int)
  let m := minDiskSize envDiskSize annot
  if imageSize < m then m else imageSize

/-- Modelled from the spec claim's words, for comparison: "an invalid
annotation or environment value is logged, ignored, and the default used
instead" — i.e. an invalid annotation falls back to the 1 GiB default
rather than to a valid environment value. -/
def claimMinDiskSize (envDiskSize : String) (annot : Option String) : Int :=
  match annot with
  | some v =>
    match parseSize v with
    | .ok p => p
    | .error _ => defaultDiskSize
  | none =>
    if envDiskSize ≠ "" then
      match parseSize envDiskSize with
      | .ok p => p
      | .error _ => defaultDiskSize
    else defaultDiskSize

/-- C4 counterexample: with `DOCK_FIRE_DISK_SIZE=2G` and an invalid
annotation `dock-fire/disk-size=bogus`, the code uses the 2 GiB
environment value, not the 1 GiB default the claim prescribes. -/
theorem c4_invalid_annotation_cex :
    minDiskSize "2G" (some "bogus") = 2147483648
    ∧ claimMinDiskSize "2G" (some "bogus") = 1073741824
    ∧ minDiskSize "2G" (some "bogus") ≠ claimMinDiskSize "2G" (some "bogus") := by
  refine ⟨rfl, rfl, by decide⟩

/-- C4 amended: the image file size is
`max(minSize, ⌊rootfsBytes · 1.20⌋)` (the padding `rootfsBytes +
rootfsBytes/5` equals `120·rootfsBytes/100` in integer arithmetic);
`minSize` is 1 GiB by default, a valid annotation wins over everything,
and an invalid annotation or environment value is logged and ignored,
falling back to the next level of precedence — a valid environment value
if there is one, else the 1 GiB default. -/
theorem c4_image_sizing_amended :
    ∀ (rootfsBytes : Nat) (envDiskSize : String) (annot : Option String)
      (a : String),
      imageSizeCalc rootfsBytes envDiskSize annot =
        max (minDiskSize envDiskSize annot)
          ((120 * rootfsBytes / 100 : Nat) : Int)
      ∧ minDiskSize envDiskSize (some a) =
          (match parseSize a with
           | .ok p => p
           | .error _ => minDiskSize envDiskSize none)
      ∧ minDiskSize "" none = defaultDiskSize
      ∧ minDiskSize envDiskSize none =
          (if envDiskSize = "" then defaultDiskSize
           else match parseSize envDiskSize with
                | .ok p => p
                | .error _ => defaultDiskSize) := by
  intro rootfsBytes envDiskSize annot a
  have hx : ((120 * rootfsBytes / 100 : Nat) : Int) =
      (rootfsBytes : Int) + ((rootfsBytes / 5 : Nat) : Int) := by
    have h5 : 120 * rootfsBytes / 100 = rootfsBytes + rootfsBytes / 5 := by
      omega
    rw [h5]
    push_cast
    ring
  refine ⟨?_, ?_, rfl, ?_⟩
  · unfold imageSizeCalc
    rw [hx]
    rcases lt_or_le ((rootfsBytes : Int) + ((rootfsBytes / 5 : Nat) : Int))
        (minDiskSize envDiskSize annot) with hlt | hle
    · rw [if_pos hlt, max_eq_left (le_of_lt hlt)]
    · rw [if_neg (not_lt.mpr hle), max_eq_right hle]
  · cases hp : parseSize a <;> simp [minDiskSize, hp]
  · by_cases he : envDiskSize = ""
    · simp [minDiskSize, he]
    · cases hp : parseSize envDiskSize <;> simp [minDiskSize, he, hp]

/-! ## The create verb (CreateCommand) and network setup (network.Setup)

`create` runs: rootfs image build, network setup (`Setup`: allocate
subnet, create TAP, install NAT — deleting the TAP if NAT installation
fails), VM start, `Transition(Created)`, `Save`, pid-file. Each step's
outcome is an input to the model; `HostResources` tracks what is left on
the host when the command returns. A `CreateImage` failure that leaves a
partially built file behind is outside this model (the model's
`imageOnDisk` means "CreateImage returned success"); the pid-file write
and the bundle/OCI-config loading before the image build are omitted,
having no resource effects. -/

/-- Outcomes of the externally visible steps of one `create` invocation. -/
structure CreateEnv where
  imageResult : Except String Unit
  allocResult : Except String Unit
  createTapOk : Bool
  natOk : Bool
  vmResult : Except String Int
  saveOk : Bool

/-- Host-side resources held when `create` returns. -/
structure HostResources where
  imageOnDisk : Bool
  tapOnDisk : Bool
  natInstalled : Bool
  persisted : Option Status
  deriving DecidableEq, Repr

/-- `network.Setup`: allocate, create TAP, install NAT; on NAT failure the
TAP is deleted before returning. -/
def setupNet (env : CreateEnv) (r : HostResources) :
    HostResources × Except String Unit :=
  match env.allocResult with
  | .error e => (r, .error ("allocate subnet: " ++ e))
  | .ok _ =>
    if env.createTapOk then
      let r1 := { r with tapOnDisk := true }
      if env.natOk then ({ r1 with natInstalled := true }, .ok ())
      else ({ r1 with tapOnDisk := false }, .error "setup NAT: iptables failed")
    else (r, .error "create TAP: ioctl failed")

/-- The `create` command body after the id-existence check: image build,
network setup, VM start, transition to `created`, save. No step deletes
the image, and no step after `Setup` returns deletes the TAP. -/
def createCmd (env : CreateEnv) : HostResources × Except String Unit :=
  let r0 : HostResources := ⟨false, false, false, none⟩
  match env.imageResult with
  | .error e => (r0, .error ("create rootfs image: " ++ e))
  | .ok _ =>
    let r1 := { r0 with imageOnDisk := true }
    match setupNet env r1 with
    | (r2, .error e) => (r2, .error ("setup networking: " ++ e))
    | (r2, .ok _) =>
      match env.vmResult with
      | .error e => (r2, .error ("start VM: " ++ e))
      | .ok _ =>
        match transition .creating .created with
        | .error e => (r2, .error ("transition to created: " ++ e))
        | .ok st =>
          if env.saveOk then ({ r2 with persisted := some st }, .ok ())
          else (r2, .error "save state: write failed")

/-- A run in which the image build succeeds and subnet allocation then
fails (every other step would have succeeded). -/
def envAllocFails : CreateEnv :=
  { imageResult := .ok (), allocResult := .error noSubnetMsg,
    createTapOk := true, natOk := true, vmResult := .ok 4242, saveOk := true }

/-- C2 counterexample: when network setup fails after the image was
built, `create` returns an error but the image file is still on disk —
the image is not rolled back. -/
theorem c2_image_not_rolled_back_cex :
    okB (createCmd envAllocFails).2 = false
    ∧ (createCmd envAllocFails).1.imageOnDisk = true := by
  exact ⟨rfl, rfl⟩

/-- C2 amended: on any failing `create`, no record with status `created`
is persisted (a record is persisted exactly when the whole invocation
succeeds), and the TAP is deleted exactly when NAT installation fails
(so a TAP created for a run whose VM start or save fails is left
behind); the NAT rules, once installed, are never removed whatever
fails afterwards, and the image file is never deleted once its build
has succeeded, whatever fails afterwards. -/
theorem c2_create_cleanup_amended :
    ∀ env : CreateEnv,
      ((createCmd env).1.persisted = some .created ↔ okB (createCmd env).2 = true)
      ∧ (createCmd env).1.imageOnDisk = okB env.imageResult
      ∧ (createCmd env).1.tapOnDisk =
          (okB env.imageResult && okB env.allocResult
            && env.createTapOk && env.natOk)
      ∧ (createCmd env).1.natInstalled =
          (okB env.imageResult && okB env.allocResult
            && env.createTapOk && env.natOk)
      ∧ okB (createCmd env).2 =
          (okB env.imageResult && okB env.allocResult && env.createTapOk
            && env.natOk && okB env.vmResult && env.saveOk) := by
  intro env
  obtain ⟨ir, ar, ct, nk, vr, so⟩ := env
  cases ir <;> cases ar <;> cases ct <;> cases nk <;> cases vr <;> cases so <;>
    simp [createCmd, setupNet, transition, validNexts, okB]

/-! ## Verbs on an unloadable record (delete.go, start, state, kill)

Each verb starts with `container.Load`; its outcome is the model's input
(`.error` for a missing or corrupt `state.json`). `delete` additionally
consults the liveness probe and the `--force` flag, and performs host
effects modelled as an explicit list. `start`'s final `Save` and `kill`'s
signal-name parsing have no bearing on the load-failure path and are
modelled as a success outcome (`start`) and a send-outcome input
(`kill`). -/

/-- Host effects a `delete` invocation can perform, in order. -/
inductive DeleteEffect where
  | stopVM
  | teardownNAT (tap cidr : String)
  | deleteTAP (name : String)
  | removeSocket (path : String)
  | removeStateDir
  deriving DecidableEq, Repr

/-- `network.Teardown`: nothing when no TAP is recorded; else NAT removal
(when a subnet is recorded) followed by TAP deletion, best-effort. -/
def teardownEffects (c : Container) : List DeleteEffect :=
  if c.tapDevice = "" then []
  else
    (if c.subnetCIDR ≠ "" then [.teardownNAT c.tapDevice c.subnetCIDR] else [])
      ++ [.deleteTAP c.tapDevice]

/-- `DeleteCommand`: on a load failure, `--force` removes the state
directory and returns success, otherwise the load error is returned; on
a loaded record, a live VMM without `--force` is an error, else the VMM
is stopped if alive, networking torn down, the recorded socket removed,
and the state directory deleted. -/
def deleteCmd (load : Except String Container) (alive force : Bool) :
    List DeleteEffect × Except String Unit :=
  match load with
  | .error e => if force then ([.removeStateDir], .ok ()) else ([], .error e)
  | .ok c =>
    if alive ∧ force = false then
      ([], .error ("container " ++ c.id ++ " has a running VM, use --force to delete"))
    else
      ((if alive then [.stopVM] else []) ++ teardownEffects c
        ++ (if c.socketPath ≠ "" then [.removeSocket c.socketPath] else [])
        ++ [.removeStateDir], .ok ())

/-- `StartCommand` after `Load`: requires status `created`, then
transitions to `running`. -/
def startCmd (load : Except String Container) : Except String Container :=
  match load with
  | .error e => .error e
  | .ok c =>
    if c.status ≠ .created then
      .error ("container " ++ c.id ++ " is not in created state")
    else
      match transition c.status .running with
      | .error e => .error ("transition to running: " ++ e)
      | .ok st => .ok { c with status := st }

/-- `StateCommand` after `Load`: reports the effective status. -/
def stateCmd (h : Host) (load : Except String Container) :
    Except String Status :=
  match load with
  | .error e => .error e
  | .ok c => .ok (EffectiveStatus h c)

/-- `KillCommand` after `Load`: requires effective status `running` or
`created`, then sends the signal (`sendOk` is the `syscall.Kill`
outcome). -/
def killCmd (h : Host) (load : Except String Container) (sendOk : Bool) :
    Except String Unit :=
  match load with
  | .error e => .error e
  | .ok c =>
    if EffectiveStatus h c ≠ .running ∧ EffectiveStatus h c ≠ .created then
      .error ("container " ++ c.id ++ " is not running")
    else if sendOk then .ok ()
    else .error ("kill VMM process " ++ toString c.pid ++ ": error")

/-- C7 counterexample: `delete --force` on an unloadable record removes
only the state directory — no TAP deletion and no socket removal appear
among its effects, although a TAP `df-{id[:8]}` and a socket
`/tmp/fc-{id[:12]}.sock` are derivable from the id alone. -/
theorem c7_force_delete_cex :
    deleteCmd (.error "unmarshal state: unexpected end of JSON input") true true
      = ([.removeStateDir], .ok ())
    ∧ DeleteEffect.deleteTAP "df-c7corru"
        ∉ (deleteCmd (.error "unmarshal state: unexpected end of JSON input") true true).1
    ∧ DeleteEffect.removeSocket "/tmp/fc-c7corruptrec.sock"
        ∉ (deleteCmd (.error "unmarshal state: unexpected end of JSON input") true true).1 := by
  refine ⟨rfl, by decide, by decide⟩

/-- C7 amended: when the record cannot be loaded, `start`, `state`,
`kill` and plain `delete` fail with the load error, while `delete
--force` proceeds and removes exactly the state directory (side
resources such as the TAP device and the control socket are not
removed in this path). -/
theorem c7_load_failure_amended :
    ∀ (e : String) (alive sendOk : Bool) (h : Host),
      startCmd (.error e) = .error e
      ∧ stateCmd h (.error e) = .error e
      ∧ killCmd h (.error e) sendOk = .error e
      ∧ deleteCmd (.error e) alive false = ([], .error e)
      ∧ deleteCmd (.error e) alive true = ([.removeStateDir], .ok ()) := by
  intro e alive sendOk h
  exact ⟨rfl, rfl, rfl, rfl, rfl⟩
